import Mathlib

/-!
Shallow embedding of the macOS windowing backend facade
(`src/platform_impl/macos/mod.rs`): the `Window` ownership sum type
(`WindowItem::Raw` / `WindowItem::Unowned`), raw-pointer access,
the guarded zoom-state query `is_maximized`, window creation, the
`DeviceId` sentinel and the `OsError` display implementation.

Pieces of the repository that the facade calls but whose source files are
not part of the excerpt (`window.rs`, `window_delegate.rs`, `app_state.rs`)
are modelled from the specification and are marked `Modelled from the
spec:` in their doc comments.  Rust `todo!()` panics are modelled as an
explicit `Fault`; mutable external state (the observer guard flag, the
AppState window registry) is threaded explicitly.
-/

namespace Tao

/-- Raw native pointer (`*mut c_void`, the `ns_window` type alias of
mod.rs line 63), modelled as a numeric address. -/
abbrev RawPtr := Nat

/-- `pub struct NativeHandle(pub ns_window)` (mod.rs line 64). -/
structure NativeHandle where
  ptr : RawPtr
deriving DecidableEq, Repr

/-- `util::IdRef`: a retained Objective-C object reference; modelled by the
object address it wraps (dereferencing an `IdRef` yields that address). -/
structure IdRef where
  id : RawPtr
deriving DecidableEq, Repr

/-- Modelled from the spec: `UnownedWindow` (its file `window.rs` is not in
the excerpt).  The facade only uses its `ns_window: IdRef` field (raw
pointer access, mod.rs line 103) and its native zoom state, read by the
`is_zoomed() -> bool` collaborator contract of spec section 6. -/
structure UnownedWindow where
  ns_window : IdRef
  zoomed : Bool
deriving DecidableEq, Repr

/-- Modelled from the spec (section 6): the NativeWindowObject contract
`is_zoomed() -> bool`, a synchronous query of the native zoom state. -/
def UnownedWindow.is_zoomed (w : UnownedWindow) : Bool :=
  w.zoomed

/-- `struct OwnedWindow` (mod.rs lines 70-74): a shared handle to the
native window plus the retained delegate, kept so the delegate is not
dropped before the window. -/
structure OwnedWindow where
  window : UnownedWindow
  delegate : IdRef
deriving DecidableEq, Repr

/-- `enum WindowItem` (mod.rs lines 66-69): `Raw` wraps a host-supplied
native handle, `Unowned` holds a toolkit-owned window/delegate pair. -/
inductive WindowItem where
  | Raw (handle : NativeHandle)
  | Unowned (win : OwnedWindow)
deriving DecidableEq, Repr

/-- `pub struct Window { item: WindowItem }` (mod.rs lines 76-78). -/
structure Window where
  item : WindowItem
deriving DecidableEq, Repr

/-- `pub enum OsError` (mod.rs lines 80-85): `CGError` carries a native
i32 status code, `CreationError` a static reason string. -/
inductive OsError where
  | CGError (code : Int)
  | CreationError (reason : String)
deriving DecidableEq, Repr

/-- A Rust panic, as raised by the `todo!()` branches of the facade
(mod.rs lines 96 and 122): the call fails explicitly and does not return
a value. -/
inductive Fault where
  | todo
deriving DecidableEq, Repr

/-- `impl Deref for Window` (mod.rs lines 90-99): an `Unowned` item derefs
to the shared `UnownedWindow`; a `Raw` item hits `todo!()` and faults. -/
def Window.deref (w : Window) : Except Fault UnownedWindow :=
  match w.item with
  | .Unowned win => .ok win.window
  | .Raw _ => .error .todo

/-- `Window::ns_window` (mod.rs lines 101-106): the underlying native
pointer of either variant; a pure projection. -/
def Window.ns_window (w : Window) : RawPtr :=
  match w.item with
  | .Unowned win => win.window.ns_window.id
  | .Raw handle => handle.ptr

/-- `Window::owned` (mod.rs lines 119-124): the owned pair of an
`Unowned` item; a `Raw` item hits `todo!()` and faults. -/
def Window.owned (w : Window) : Except Fault OwnedWindow :=
  match w.item with
  | .Unowned window => .ok window
  | .Raw _ => .error .todo

/-- `Window::from_raw_handle` (mod.rs lines 133-137): wraps a
host-supplied handle structurally, with no failure mode, touching no
other state. -/
def Window.from_raw_handle (raw_window_handle : NativeHandle) : Window :=
  { item := .Raw raw_window_handle }

/-- The observer attached to a handle, if any: only the `Unowned` variant
carries a delegate, the `Raw` constructor has no observer field at all. -/
def Window.observer (w : Window) : Option IdRef :=
  match w.item with
  | .Unowned win => some win.delegate
  | .Raw _ => none

/-- Modelled from the spec (section 4.2): the per-window flag set held by
the WindowObserver (its file `window_delegate.rs` is not in the excerpt).
The facade uses exactly one flag, the zoom-query guard. -/
structure ObserverState where
  isCheckingZoomedIn : Bool
deriving DecidableEq, Repr

/-- Modelled from the spec (section 4.2 step 1): the delegate message
`markIsCheckingZoomedIn` sent at mod.rs line 128 sets the guard flag. -/
def markIsCheckingZoomedIn (_s : ObserverState) : ObserverState :=
  { isCheckingZoomedIn := true }

/-- Modelled from the spec (section 4.2 step 3): the delegate message
`clearIsCheckingZoomedIn` sent at mod.rs line 130 clears the guard flag. -/
def clearIsCheckingZoomedIn (_s : ObserverState) : ObserverState :=
  { isCheckingZoomedIn := false }

/-- The three observable steps of the guarded zoom-query protocol, in the
order `is_maximized` executes them. -/
inductive ProtoStep where
  | mark
  | query
  | clear
deriving DecidableEq, Repr

/-- `Window::is_maximized` (mod.rs lines 126-132) with the native zoom
query left as a parameter `q`, since the query body lives outside the
excerpt: `q` receives the observer state after the mark step and may
transform it; a faulting `q` models a native call that does not complete,
in which case the fault propagates (a Rust unwind) and the clear line is
skipped.  The returned list records which protocol steps ran, in order. -/
def Window.is_maximized_with (w : Window)
    (q : ObserverState → (Except Fault Bool) × ObserverState)
    (s : ObserverState) : (Except Fault Bool) × ObserverState × List ProtoStep :=
  match w.owned with
  | .error e => (.error e, s, [])
  | .ok _ =>
    match q (markIsCheckingZoomedIn s) with
    | (.error e, s2) => (.error e, s2, [.mark, .query])
    | (.ok f, s2) => (.ok f, clearIsCheckingZoomedIn s2, [.mark, .query, .clear])

/-- `Window::is_maximized` (mod.rs lines 126-132) with the query
instantiated to the spec-modelled `is_zoomed` contract: mark the guard
flag on the delegate, query the native zoom state synchronously, clear
the guard flag, return the queried boolean. -/
def Window.is_maximized (w : Window) (s : ObserverState) :
    (Except Fault Bool) × ObserverState × List ProtoStep :=
  match w.owned with
  | .error e => (.error e, s, [])
  | .ok ow =>
    let s1 := markIsCheckingZoomedIn s
    let f := ow.window.is_zoomed
    let s2 := clearIsCheckingZoomedIn s1
    (.ok f, s2, [.mark, .query, .clear])

/-- `WindowAttributes` as exercised by the spec scenarios (section 8):
requested dimensions and title. -/
structure WindowAttributes where
  width : Int
  height : Int
  title : String
deriving DecidableEq, Repr

/-- Modelled from the spec (section 3): the AppState window registry, the
process-wide map from window identifier to window metadata (its file
`app_state.rs` is not in the excerpt), plus a fresh-identifier counter. -/
structure AppState where
  next_id : Nat
  windows : List Nat
deriving DecidableEq, Repr

/-- Modelled from the spec (sections 4.1 and 8): `UnownedWindow::new`
(its file `window.rs` is not in the excerpt) constructs the native window
and its delegate together; deliberately invalid attributes (negative
dimensions) fail native construction with `CreationError`, leaving
AppState unchanged; on success the window is registered in AppState and
the fresh window starts not zoomed. -/
def UnownedWindow.new (attributes : WindowAttributes) (st : AppState) :
    (Except OsError (UnownedWindow × IdRef)) × AppState :=
  if attributes.width < 0 ∨ attributes.height < 0 then
    (.error (.CreationError "Could not create NSWindow"), st)
  else
    (.ok ({ ns_window := { id := st.next_id }, zoomed := false },
          { id := st.next_id + 1 }),
     { next_id := st.next_id + 2, windows := st.next_id :: st.windows })

/-- `Window::new` (mod.rs lines 109-117): delegates to
`UnownedWindow::new`, propagates its `Err` with `?`, and on success wraps
the pair in the `Unowned` variant. -/
def Window.new (attributes : WindowAttributes) (st : AppState) :
    (Except OsError Window) × AppState :=
  match UnownedWindow.new attributes st with
  | (.error e, st1) => (.error e, st1)
  | (.ok (window, delegate), st1) =>
    (.ok { item := .Unowned { window := window, delegate := delegate } }, st1)

/-- `pub struct DeviceId;` (mod.rs lines 50-51), a unit struct. -/
inductive DeviceId where
  | mk
deriving DecidableEq, Repr

/-- `DeviceId::dummy` (mod.rs lines 54-56): returns the unit value. -/
def DeviceId.dummy : DeviceId :=
  .mk

/-- The crate-level `event::DeviceId` newtype wrapping the platform
`DeviceId` (mod.rs lines 44 and 60). -/
structure RootDeviceId where
  val : DeviceId
deriving DecidableEq, Repr

/-- `pub(crate) const DEVICE_ID: RootDeviceId = RootDeviceId(DeviceId)`
(mod.rs line 60). -/
def DEVICE_ID : RootDeviceId :=
  { val := .mk }

/-- `impl fmt::Display for OsError` (mod.rs lines 140-147): `CGError(e)`
renders as `"CGError "` followed by the code, `CreationError(e)` renders
as the reason string itself (`f.pad` with default options writes the
string verbatim). -/
def OsError.display : OsError → String
  | .CGError e => "CGError " ++ toString e
  | .CreationError e => e

/-- A concrete Owned-variant handle used by witnesses. -/
def sampleOwned : Window :=
  { item := .Unowned { window := { ns_window := { id := 1 }, zoomed := false },
                       delegate := { id := 2 } } }

/-- A concrete native query used by witnesses: reports not zoomed and
leaves the observer state alone. -/
def sampleQuery : ObserverState → (Except Fault Bool) × ObserverState :=
  fun s0 => (.ok false, s0)

/-- The owned pair inside `sampleOwned`, used by witnesses. -/
def sampleOwnedPair : OwnedWindow :=
  { window := { ns_window := { id := 1 }, zoomed := false }, delegate := { id := 2 } }

/-- The handle produced by a successful sample `Window::new` call, used by
witnesses. -/
def sampleCreated : Window :=
  { item := .Unowned { window := { ns_window := { id := 0 }, zoomed := false },
                       delegate := { id := 1 } } }

/-- C1: whenever `is_maximized` returns a value — for any handle, any
behaviour of the native zoom query (including one that faults) and any
starting observer state — the guard flag is false on return: the clear
step runs on every returning path, so the checking state never leaks past
a completed call. -/
theorem claim_C1 (w : Window) (q : ObserverState → (Except Fault Bool) × ObserverState)
    (s : ObserverState) (r : Bool) (s2 : ObserverState) (tr : List ProtoStep)
    (h : w.is_maximized_with q s = (.ok r, s2, tr)) :
    s2.isCheckingZoomedIn = false := by
  obtain ⟨item⟩ := w
  cases item with
  | Raw handle =>
    simp [Window.is_maximized_with, Window.owned] at h
  | Unowned ow =>
    simp only [Window.is_maximized_with, Window.owned] at h
    cases hq : q (markIsCheckingZoomedIn s) with
    | mk qr s3 =>
      rw [hq] at h
      cases qr with
      | error e => simp at h
      | ok f =>
        simp only [Prod.mk.injEq] at h
        rw [← h.2.1]
        rfl

/-- Witness for C1: a concrete owned handle, query and starting state. -/
theorem claim_C1_witness :
    ({ isCheckingZoomedIn := false } : ObserverState).isCheckingZoomedIn = false :=
  claim_C1 sampleOwned sampleQuery { isCheckingZoomedIn := true } false
    { isCheckingZoomedIn := false } [.mark, .query, .clear] rfl

/-- C2: on an Owned-variant handle, `is_maximized` executes exactly the
three-step guarded protocol in order — mark the guard flag, run the
native zoom query, clear the guard flag — and returns exactly the boolean
the query reported. -/
theorem claim_C2 (w : Window) (ow : OwnedWindow) (s : ObserverState)
    (h : w.owned = .ok ow) :
    w.is_maximized s =
      (.ok ow.window.is_zoomed, { isCheckingZoomedIn := false },
        [.mark, .query, .clear]) := by
  unfold Window.is_maximized
  rw [h]
  rfl

/-- Witness for C2: the concrete owned handle reports not zoomed. -/
theorem claim_C2_witness :
    sampleOwned.is_maximized { isCheckingZoomedIn := false } =
      (.ok false, { isCheckingZoomedIn := false }, [.mark, .query, .clear]) :=
  claim_C2 sampleOwned sampleOwnedPair { isCheckingZoomedIn := false } rfl

/-- C3: on a Raw-variant handle (built by `from_raw_handle`) every
operation that needs the observer or the window internals — the Deref to
`UnownedWindow`, the `owned` accessor, and `is_maximized` which goes
through it — fails explicitly with the `todo!()` fault, never a silent
no-op and never a fabricated boolean. -/
theorem claim_C3 (h : NativeHandle) (s : ObserverState) :
    (Window.from_raw_handle h).deref = .error .todo ∧
    (Window.from_raw_handle h).owned = .error .todo ∧
    (Window.from_raw_handle h).is_maximized s = (.error .todo, s, []) :=
  ⟨rfl, rfl, rfl⟩

/-- C4: when native construction fails, `Window::new` returns that very
`OsError` as an ordinary `Err` value (its type admits only a
`CreationError` reason string or a native `CGError` code) and AppState is
exactly what it was before the call: no partially-initialized window is
left registered. -/
theorem claim_C4 (attributes : WindowAttributes) (st st1 : AppState) (e : OsError)
    (h : UnownedWindow.new attributes st = (.error e, st1)) :
    Window.new attributes st = (.error e, st1) ∧ st1 = st ∧
      ((∃ r, e = .CreationError r) ∨ (∃ c, e = .CGError c)) := by
  refine ⟨?_, ?_, ?_⟩
  · unfold Window.new
    rw [h]
  · unfold UnownedWindow.new at h
    by_cases hc : attributes.width < 0 ∨ attributes.height < 0
    · rw [if_pos hc] at h
      exact (Prod.mk.injEq _ _ _ _ ▸ h).2.symm
    · rw [if_neg hc] at h
      simp at h
  · cases e with
    | CGError c => exact Or.inr ⟨c, rfl⟩
    | CreationError r => exact Or.inl ⟨r, rfl⟩

/-- Witness for C4: negative width makes native construction fail. -/
theorem claim_C4_witness :
    Window.new { width := -1, height := 600, title := "t" }
        { next_id := 0, windows := [] } =
      (.error (.CreationError "Could not create NSWindow"),
        { next_id := 0, windows := [] }) ∧
    ({ next_id := 0, windows := [] } : AppState) = { next_id := 0, windows := [] } ∧
    ((∃ r, (OsError.CreationError "Could not create NSWindow") = .CreationError r) ∨
     (∃ c, (OsError.CreationError "Could not create NSWindow") = .CGError c)) :=
  claim_C4 { width := -1, height := 600, title := "t" }
    { next_id := 0, windows := [] } { next_id := 0, windows := [] }
    (.CreationError "Could not create NSWindow") rfl

/-- C5: every successful `Window::new` yields the Owned (`Unowned` in the
source's naming) variant, holding exactly the native window and the
delegate that `UnownedWindow::new` constructed together; success never
yields the Raw variant. -/
theorem claim_C5 (attributes : WindowAttributes) (st st1 : AppState) (w : Window)
    (h : Window.new attributes st = (.ok w, st1)) :
    ∃ window delegate,
      UnownedWindow.new attributes st = (.ok (window, delegate), st1) ∧
      w.item = .Unowned { window := window, delegate := delegate } := by
  unfold Window.new at h
  cases hu : UnownedWindow.new attributes st with
  | mk res st2 =>
    rw [hu] at h
    cases res with
    | error e => simp at h
    | ok pair =>
      obtain ⟨window, delegate⟩ := pair
      simp only [Prod.mk.injEq, Except.ok.injEq] at h
      obtain ⟨hw2, hst⟩ := h
      subst hst
      subst hw2
      exact ⟨window, delegate, rfl, rfl⟩

/-- Witness for C5: the sample creation succeeds and yields the Owned
variant. -/
theorem claim_C5_witness :
    ∃ window delegate,
      UnownedWindow.new { width := 800, height := 600, title := "t" }
          { next_id := 0, windows := [] } =
        (.ok (window, delegate), { next_id := 2, windows := [0] }) ∧
      sampleCreated.item = .Unowned { window := window, delegate := delegate } :=
  claim_C5 { width := 800, height := 600, title := "t" }
    { next_id := 0, windows := [] } { next_id := 2, windows := [0] }
    sampleCreated rfl

/-- C6: `ns_window` is a pure projection of the handle — it takes no state
and returns the underlying native pointer of either variant: for a handle
built by `from_raw_handle` the very pointer supplied (round-trip
identity), for an Owned handle the shared native window's pointer. -/
theorem claim_C6 :
    (∀ p : RawPtr, (Window.from_raw_handle { ptr := p }).ns_window = p) ∧
    (∀ ow : OwnedWindow, (Window.mk (.Unowned ow)).ns_window = ow.window.ns_window.id) :=
  ⟨fun _ => rfl, fun _ => rfl⟩

/-- C7: `from_raw_handle` is total — on every native handle it succeeds
structurally, producing the Raw variant wrapping that handle — and the
result carries no observer; its type touches no AppState, so nothing is
registered. -/
theorem claim_C7 (h : NativeHandle) :
    (Window.from_raw_handle h).item = .Raw h ∧
    (Window.from_raw_handle h).observer = none :=
  ⟨rfl, rfl⟩

/-- C8: `DeviceId` is a singleton sentinel — any two values, however
obtained, are equal, and the `DEVICE_ID` constant wraps the same value
`DeviceId::dummy` returns. -/
theorem claim_C8 :
    (∀ a b : DeviceId, a = b) ∧ DEVICE_ID.val = DeviceId.dummy := by
  refine ⟨?_, rfl⟩
  intro a b
  cases a
  cases b
  rfl

/-- C9: `is_maximized` on an Owned handle is frame-preserving: the handle
itself is taken immutably (its variant tag, window and delegate cannot
change), and the observer state — the only mutable state the call
touches — comes back exactly equal to the input when the guard flag
starts clear: the transient flag is set and restored. -/
theorem claim_C9 (w : Window) (ow : OwnedWindow) (s : ObserverState)
    (h : w.owned = .ok ow) (hs : s.isCheckingZoomedIn = false) :
    w.is_maximized s = (.ok ow.window.is_zoomed, s, [.mark, .query, .clear]) := by
  unfold Window.is_maximized
  rw [h]
  cases s with
  | mk flag =>
    cases hs
    rfl

/-- Witness for C9: a concrete owned handle with the guard flag clear. -/
theorem claim_C9_witness :
    sampleOwned.is_maximized { isCheckingZoomedIn := false } =
      (.ok sampleOwnedPair.window.is_zoomed, { isCheckingZoomedIn := false },
        [.mark, .query, .clear]) :=
  claim_C9 sampleOwned sampleOwnedPair { isCheckingZoomedIn := false } rfl rfl

/-- C10: the Display rendering of `OsError` is total and deterministic:
`CreationError(reason)` renders to exactly the reason string and
`CGError(code)` to `"CGError "` followed by the code, as checked on a
concrete negative code. -/
theorem claim_C10 :
    (∀ r, OsError.display (.CreationError r) = r) ∧
    (∀ c, OsError.display (.CGError c) = "CGError " ++ toString c) ∧
    OsError.display (.CGError (-3)) = "CGError -3" :=
  ⟨fun _ => rfl, fun _ => rfl, rfl⟩

end Tao
